import Mathlib

/-!
Shallow embedding of the PulseRoute backend transfer-request engine.

Conventions of the embedding:
* Firestore documents are Lean structures; the document id is a `Nat` drawn
  from a per-database counter `nextId` (Firestore assigns opaque unique ids;
  only freshness and distinctness matter to the verified properties).
* The document store (`FirebaseClient` backed by Firestore) becomes an
  explicit state record `DB` threaded through every operation.
  `get` is `List.find?` on the collection, `update(collection, id, partial)`
  becomes mapping the corresponding record update over the collection, and
  `create` appends a document carrying a fresh id.
* Server-assigned timestamp fields (`created_at`, `updated_at`, `timestamp`)
  are elided: no verified property mentions them, and the chat-message
  timestamp order coincides with insertion order because the server clock is
  monotone, so `order_by("timestamp")` is modelled on insertion order.
* Python floats that are only passed through (ML scores, distances) are
  modelled as integers; no code path under verification computes on them.
* The external ML ranking call in `PatientService._get_ml_matches` is
  modelled by an explicit `MLResponse` argument describing the HTTP outcome
  (200 body, non-2xx, or a network error/timeout raising an exception).
* The `async` functions have no internal suspension relevant to these
  properties; they are modelled as pure state transformers.
-/

/-- Stored patient document (collection `patients`), with the document id
attached as Firestore does on reads. Mirrors the dict assembled in
`PatientService.register_patient`. -/
structure Patient where
  id : Nat
  ems_unit_id : String
  name : String
  age : Int
  gender : String
  disease_code : String
  severity_code : String
  latitude : Int
  longitude : Int
  vital_signs : Option String
  status : String
deriving DecidableEq, Repr

/-- Stored transfer-request document (collection `transfer_requests`).
Mirrors the dicts built in `PatientService` / `HospitalService`. -/
structure TransferRequest where
  id : Nat
  patient_id : Nat
  ems_unit_id : String
  hospital_id : String
  hospital_name : String
  hospital_address : String
  status : String
  rejection_reason : Option String
  ml_score : Int
  distance_km : Int
  estimated_time_minutes : Int
  recommendation_reason : String
  total_beds : Option Int
  has_trauma_center : Option Bool
deriving DecidableEq, Repr

/-- Stored chat-room document (collection `chat_rooms`), as created in
`HospitalService.accept_request`. -/
structure ChatRoom where
  id : Nat
  patient_id : Nat
  ems_unit_id : String
  hospital_id : String
  is_active : Bool
deriving DecidableEq, Repr

/-- Stored chat-message document (collection `chat_messages`), as created in
`ChatService.create_message`. -/
structure ChatMessage where
  id : Nat
  room_id : Nat
  sender_id : String
  sender_type : String
  message : String
  is_read : Bool
deriving DecidableEq, Repr

/-- The Firestore database state: one list per collection (in insertion
order, which equals server-timestamp order) plus the fresh-id counter. -/
structure DB where
  patients : List Patient
  transfer_requests : List TransferRequest
  chat_rooms : List ChatRoom
  chat_messages : List ChatMessage
  nextId : Nat
deriving DecidableEq, Repr

namespace FirebaseClient

/-- `FirebaseClient.create_patient`: assigns a fresh document id and stores
the document. Returns the new id. -/
def create_patient (db : DB) (p : Patient) : DB × Nat :=
  let pid := db.nextId
  ({ db with patients := db.patients ++ [{ p with id := pid }],
             nextId := pid + 1 }, pid)

/-- `FirebaseClient.get_patient`: document lookup by id (`None` if absent). -/
def get_patient (db : DB) (patient_id : Nat) : Option Patient :=
  db.patients.find? (fun p => p.id == patient_id)

/-- `FirebaseClient.update_patient`: partial update of one patient document.
The call-site partial-update dict is modelled by the record update `f`. -/
def update_patient (db : DB) (patient_id : Nat) (f : Patient → Patient) : DB :=
  { db with patients :=
      db.patients.map (fun p => if p.id == patient_id then f p else p) }

/-- `FirebaseClient.create_transfer_request`: assigns a fresh document id and
stores the document. Returns the new id. -/
def create_transfer_request (db : DB) (r : TransferRequest) : DB × Nat :=
  let rid := db.nextId
  ({ db with transfer_requests := db.transfer_requests ++ [{ r with id := rid }],
             nextId := rid + 1 }, rid)

/-- `FirebaseClient.get_transfer_request`: lookup by id. -/
def get_transfer_request (db : DB) (request_id : Nat) : Option TransferRequest :=
  db.transfer_requests.find? (fun r => r.id == request_id)

/-- `FirebaseClient.get_requests_for_patient`: equality query on
`patient_id` over the `transfer_requests` collection. -/
def get_requests_for_patient (db : DB) (patient_id : Nat) : List TransferRequest :=
  db.transfer_requests.filter (fun r => r.patient_id == patient_id)

/-- `FirebaseClient.get_pending_requests_for_hospital`: equality query on
`hospital_id` and `status == "pending"`. -/
def get_pending_requests_for_hospital (db : DB) (hospital_id : String) :
    List TransferRequest :=
  db.transfer_requests.filter
    (fun r => r.hospital_id == hospital_id && r.status == "pending")

/-- `FirebaseClient.update_transfer_request`: partial update of one
transfer-request document, modelled by the record update `f`. -/
def update_transfer_request (db : DB) (request_id : Nat)
    (f : TransferRequest → TransferRequest) : DB :=
  { db with transfer_requests :=
      db.transfer_requests.map (fun r => if r.id == request_id then f r else r) }

/-- `FirebaseClient.create_chat_room`: assigns a fresh document id and stores
the document. Returns the new id. -/
def create_chat_room (db : DB) (room : ChatRoom) : DB × Nat :=
  let cid := db.nextId
  ({ db with chat_rooms := db.chat_rooms ++ [{ room with id := cid }],
             nextId := cid + 1 }, cid)

/-- `FirebaseClient.get_chat_room`: lookup by id. -/
def get_chat_room (db : DB) (room_id : Nat) : Option ChatRoom :=
  db.chat_rooms.find? (fun r => r.id == room_id)

/-- `FirebaseClient.create_chat_message`: assigns a fresh document id and
stores the document. Returns the new id. -/
def create_chat_message (db : DB) (m : ChatMessage) : DB × Nat :=
  let mid := db.nextId
  ({ db with chat_messages := db.chat_messages ++ [{ m with id := mid }],
             nextId := mid + 1 }, mid)

/-- `FirebaseClient.get_chat_messages`: the room's messages ordered by
timestamp descending, truncated to `limit`, then re-sorted ascending.
Insertion order equals server-timestamp order, so "descending + limit"
is "reverse, take", and the final ascending sort undoes the reversal. -/
def get_chat_messages (db : DB) (room_id : Nat) (limit : Nat) : List ChatMessage :=
  let msgs := db.chat_messages.filter (fun m => m.room_id == room_id)
  ((msgs.reverse).take limit).reverse

end FirebaseClient

/-- Python `str.strip()`: drop leading and trailing whitespace. Defined on
the character list so that it evaluates by kernel reduction. -/
def pyStrip (s : String) : String :=
  ⟨((s.data.dropWhile Char.isWhitespace).reverse.dropWhile
      Char.isWhitespace).reverse⟩

/-- `validators.validate_patient_data` (src/app/utils/validators.py):
demographic validation returning (valid?, message). -/
def validate_patient_data (name : String) (age : Int) (gender : String) :
    Bool × String :=
  if name = "" || pyStrip name = "" then
    (false, "환자 이름이 필요합니다")
  else if age < 0 || age > 150 then
    (false, "유효하지 않은 나이입니다")
  else if gender ≠ "M" && gender ≠ "F" then
    (false, "성별은 M 또는 F여야 합니다")
  else
    (true, "유효한 환자 정보입니다")

/-- One ranked hospital as returned in the ML server's 200 body
(`ranked_hospitals` array element), restricted to the fields the backend
reads. Numeric payload fields are modelled as integers (pass-through only). -/
structure MLHospital where
  facid : String
  name : String
  address : String
  final_score : Int
  distance_km : Int
  duration_minutes : Int
  recommendation_reason : String
  total_beds : Option Int
  has_trauma_center : Option Bool
deriving DecidableEq, Repr

/-- Outcome of the HTTP POST to `{ML_SERVER_URL}/api/predict/rank`:
a 200 response carrying `ranked_hospitals`, a non-2xx response, or an
exception (network error / timeout). -/
inductive MLResponse where
  | ok (ranked_hospitals : List MLHospital)
  | httpError
  | networkError
deriving DecidableEq, Repr

/-- The per-candidate match dict built by `PatientService._get_ml_matches`
(the raw `hospital_info` passthrough field is elided; nothing verified
reads it). -/
structure MatchedHospital where
  hospital_id : String
  name : String
  address : String
  ml_score : Int
  distance_km : Int
  estimated_time_minutes : Int
  recommendation_reason : String
  total_beds : Option Int
  has_trauma_center : Option Bool
deriving DecidableEq, Repr

/-- Patient registration payload (schema `PatientRegisterRequest`), as
consumed by `PatientService.register_patient`. -/
structure PatientPayload where
  name : String
  age : Int
  gender : String
  disease_code : String
  severity_code : String
  latitude : Int
  longitude : Int
  vital_signs : Option String
deriving DecidableEq, Repr

/-- Result of `register_patient`: the stored patient, with the transient
`matched_hospitals` annotation attached only when matching succeeded. -/
structure RegisterResult where
  patient : Patient
  matched_hospitals : Option (List MatchedHospital)
deriving DecidableEq, Repr

/-- Payload of the explicit-request API (schema
`TransferRequestCreateRequest`), consumed by
`PatientService.create_transfer_request`. Optional schema fields appear
here with their server-side defaults already applied, matching the
`.get(key, default)` reads in the service. -/
structure HospitalData where
  hospital_id : String
  hospital_name : String
  hospital_address : String
  ml_score : Int
  distance_km : Int
  estimated_time_minutes : Int
  recommendation_reason : String
  total_beds : Option Int
  has_trauma_center : Option Bool
deriving DecidableEq, Repr

namespace PatientService

/-- `PatientService._fallback_distance_based_matching`: the fallback on any
ML failure returns the empty list (no hospital data lives in Firebase). -/
def fallback_distance_based_matching : List MatchedHospital := []

/-- `PatientService._get_ml_matches`: on HTTP 200 maps each ranked hospital
to a match dict; on a non-2xx status or an exception falls back to
`_fallback_distance_based_matching` (the empty list). -/
def get_ml_matches (resp : MLResponse) : List MatchedHospital :=
  match resp with
  | .ok ranked =>
      ranked.map (fun hospital =>
        { hospital_id := hospital.facid
          name := hospital.name
          address := hospital.address
          ml_score := hospital.final_score
          distance_km := hospital.distance_km
          estimated_time_minutes := hospital.duration_minutes
          recommendation_reason := hospital.recommendation_reason
          total_beds := hospital.total_beds
          has_trauma_center := hospital.has_trauma_center })
  | .httpError => fallback_distance_based_matching
  | .networkError => fallback_distance_based_matching

/-- `PatientService.register_patient`: validate demographics, create the
patient with status `"searching"`, call the ML ranking, advance the status
to `"matched"` only when at least one candidate came back, and return the
stored patient annotated with the candidate list when nonempty.
No TransferRequest is created on this path. -/
def register_patient (db : DB) (ems_unit_id : String)
    (patient_data : PatientPayload) (ml_response : MLResponse) :
    DB × Option RegisterResult :=
  if !(validate_patient_data patient_data.name patient_data.age patient_data.gender).1 then
    (db, none)
  else
    let patient_doc : Patient :=
      { id := 0
        ems_unit_id := ems_unit_id
        name := patient_data.name
        age := patient_data.age
        gender := patient_data.gender
        disease_code := patient_data.disease_code
        severity_code := patient_data.severity_code
        latitude := patient_data.latitude
        longitude := patient_data.longitude
        vital_signs := patient_data.vital_signs
        status := "searching" }
    let created := FirebaseClient.create_patient db patient_doc
    let db1 := created.1
    let patient_id := created.2
    let matched_hospitals := get_ml_matches ml_response
    let db2 :=
      if matched_hospitals.isEmpty then db1
      else FirebaseClient.update_patient db1 patient_id
             (fun p => { p with status := "matched" })
    match FirebaseClient.get_patient db2 patient_id with
    | none => (db2, none)
    | some patient =>
        if matched_hospitals.isEmpty then
          (db2, some { patient := patient, matched_hospitals := none })
        else
          (db2, some { patient := patient, matched_hospitals := some matched_hospitals })

/-- `PatientService._create_transfer_requests`: the auto-fan-out helper.
Creates one `"pending"` TransferRequest per candidate for at most the first
10 candidates. It is defined in the source but invoked from nowhere. -/
def create_transfer_requests (db : DB) (patient_id : Nat) (ems_unit_id : String)
    (matched_hospitals : List MatchedHospital) : DB :=
  (matched_hospitals.take 10).foldl
    (fun d matchh =>
      (FirebaseClient.create_transfer_request d
        { id := 0
          patient_id := patient_id
          ems_unit_id := ems_unit_id
          hospital_id := matchh.hospital_id
          hospital_name := matchh.name
          hospital_address := matchh.address
          status := "pending"
          rejection_reason := none
          ml_score := matchh.ml_score
          distance_km := matchh.distance_km
          estimated_time_minutes := matchh.estimated_time_minutes
          recommendation_reason := matchh.recommendation_reason
          total_beds := matchh.total_beds
          has_trauma_center := matchh.has_trauma_center }).1)
    db

/-- `PatientService.complete_transfer`: look up the patient, check EMS
ownership, return the current state as-is when already `"transferred"`,
otherwise set status `"transferred"` and return the re-fetched patient. -/
def complete_transfer (db : DB) (patient_id : Nat) (ems_unit_id : String) :
    DB × Option Patient :=
  match FirebaseClient.get_patient db patient_id with
  | none => (db, none)
  | some patient =>
      if patient.ems_unit_id ≠ ems_unit_id then (db, none)
      else if patient.status = "transferred" then (db, some patient)
      else
        let db1 := FirebaseClient.update_patient db patient_id
          (fun p => { p with status := "transferred" })
        (db1, FirebaseClient.get_patient db1 patient_id)

/-- `PatientService.create_transfer_request`: look up the patient, check
EMS ownership, reject already-transferred patients, then persist one
`"pending"` request — with `hospital_id` overridden by the demo constant
`"hosp01"` — and set the patient's status to `"requesting"`. Returns the
re-fetched request. -/
def create_transfer_request (db : DB) (patient_id : Nat) (ems_unit_id : String)
    (hospital_data : HospitalData) : DB × Option TransferRequest :=
  match FirebaseClient.get_patient db patient_id with
  | none => (db, none)
  | some patient =>
      if patient.ems_unit_id ≠ ems_unit_id then (db, none)
      else if patient.status = "transferred" then (db, none)
      else
        let demo_hospital_id := "hosp01"
        let request_data : TransferRequest :=
          { id := 0
            patient_id := patient_id
            ems_unit_id := ems_unit_id
            hospital_id := demo_hospital_id
            hospital_name := hospital_data.hospital_name
            hospital_address := hospital_data.hospital_address
            status := "pending"
            rejection_reason := none
            ml_score := hospital_data.ml_score
            distance_km := hospital_data.distance_km
            estimated_time_minutes := hospital_data.estimated_time_minutes
            recommendation_reason := hospital_data.recommendation_reason
            total_beds := hospital_data.total_beds
            has_trauma_center := hospital_data.has_trauma_center }
        let created := FirebaseClient.create_transfer_request db request_data
        let db1 := created.1
        let request_id := created.2
        let db2 := FirebaseClient.update_patient db1 patient_id
          (fun p => { p with status := "requesting" })
        (db2, FirebaseClient.get_transfer_request db2 request_id)

end PatientService

namespace HospitalService

/-- Return shape of `HospitalService.accept_request`: the re-fetched request
dict with the `chat_room_id` key attached. -/
structure AcceptResult where
  request : TransferRequest
  chat_room_id : Nat
deriving DecidableEq, Repr

/-- `HospitalService.accept_request`: look up the request, check the caller
owns it, set it `"accepted"`, cancel the same patient's other requests that
are currently `"pending"`, create the chat room (patient id, EMS unit id,
hospital id, active), and return the re-fetched request with the room id.
No status precondition is checked on the target request. -/
def accept_request (db : DB) (request_id : Nat) (hospital_id : String) :
    DB × Option AcceptResult :=
  match FirebaseClient.get_transfer_request db request_id with
  | none => (db, none)
  | some request =>
      if request.hospital_id ≠ hospital_id then (db, none)
      else
        let db1 := FirebaseClient.update_transfer_request db request_id
          (fun r => { r with status := "accepted" })
        let patient_id := request.patient_id
        let all_requests := FirebaseClient.get_requests_for_patient db1 patient_id
        let db2 := all_requests.foldl
          (fun d req =>
            if req.id ≠ request_id ∧ req.status = "pending" then
              FirebaseClient.update_transfer_request d req.id
                (fun r => { r with status := "cancelled" })
            else d)
          db1
        let chat_room_data : ChatRoom :=
          { id := 0
            patient_id := patient_id
            ems_unit_id := request.ems_unit_id
            hospital_id := hospital_id
            is_active := true }
        let roomCreated := FirebaseClient.create_chat_room db2 chat_room_data
        let db3 := roomCreated.1
        let chat_room_id := roomCreated.2
        match FirebaseClient.get_transfer_request db3 request_id with
        | none => (db3, none)
        | some updated => (db3, some { request := updated, chat_room_id := chat_room_id })

/-- `HospitalService.reject_request`: look up the request, check the caller
owns it, set status `"rejected"` with the rejection reason, and return the
re-fetched request. No other document is touched. -/
def reject_request (db : DB) (request_id : Nat) (hospital_id : String)
    (reason : String) : DB × Option TransferRequest :=
  match FirebaseClient.get_transfer_request db request_id with
  | none => (db, none)
  | some request =>
      if request.hospital_id ≠ hospital_id then (db, none)
      else
        let db1 := FirebaseClient.update_transfer_request db request_id
          (fun r => { r with status := "rejected", rejection_reason := some reason })
        (db1, FirebaseClient.get_transfer_request db1 request_id)

end HospitalService

/-- REST layer `requests.reject_request` (src/app/api/requests.py): passes
`update.rejection_reason or "병상 부족"` to the service, so a missing or
empty ("falsy") reason becomes the default `"병상 부족"` ("no capacity"). -/
def api_reject_request (db : DB) (request_id : Nat) (hospital_id : String)
    (rejection_reason : Option String) : DB × Option TransferRequest :=
  HospitalService.reject_request db request_id hospital_id
    (match rejection_reason with
     | none => "병상 부족"
     | some s => if s = "" then "병상 부족" else s)

namespace ChatService

/-- `ChatService.create_message`: look up the room; authorize the sender
against the room's recorded participant for its `sender_type` (`"ems"` ↦
`ems_unit_id`, `"hospital"` ↦ `hospital_id`), returning `none` (silent
drop) on a mismatch; otherwise persist the message and return the room's
latest stored message. -/
def create_message (db : DB) (room_id : Nat) (sender_id : String)
    (sender_type : String) (message : String) : DB × Option ChatMessage :=
  match FirebaseClient.get_chat_room db room_id with
  | none => (db, none)
  | some room =>
      if sender_type = "ems" ∧ room.ems_unit_id ≠ sender_id then (db, none)
      else if sender_type = "hospital" ∧ room.hospital_id ≠ sender_id then (db, none)
      else
        let message_data : ChatMessage :=
          { id := 0
            room_id := room_id
            sender_id := sender_id
            sender_type := sender_type
            message := message
            is_read := false }
        let created := FirebaseClient.create_chat_message db message_data
        let db1 := created.1
        match FirebaseClient.get_chat_messages db1 room_id 1 with
        | [] => (db1, none)
        | m :: _ => (db1, some m)

end ChatService

/-- `ConnectionManager` (src/app/api/chat.py): the room registry, a mapping
from room id to the set of live connections. Connections are identified by
`Nat` handles; a room's set is carried as a duplicate-free list. -/
structure ConnectionManager where
  active_connections : List (Nat × List Nat)
deriving DecidableEq, Repr

namespace ConnectionManager

/-- Room lookup: `some conns` iff `room_id in self.active_connections`,
mirroring the membership test guarding `broadcast`. -/
def roomConns (m : ConnectionManager) (room_id : Nat) : Option (List Nat) :=
  (m.active_connections.find? (fun e => e.1 == room_id)).map (fun e => e.2)

/-- In-place replacement of a room's connection set
(`self.active_connections[room_id] = conns`). -/
def setRoom (m : ConnectionManager) (room_id : Nat) (conns : List Nat) :
    ConnectionManager :=
  { active_connections :=
      m.active_connections.map (fun e => if e.1 == room_id then (e.1, conns) else e) }

/-- `ConnectionManager.broadcast`: send the event to every connection
registered in the room; `websocket.send_json` raising for a connection
(per the failure oracle `fails`) is caught, the loop continues, and the
failing connections are removed from the room set afterwards. Returns the
updated registry together with the deliveries that succeeded. -/
def broadcast {α : Type} (m : ConnectionManager) (fails : Nat → Bool)
    (room_id : Nat) (message : α) : ConnectionManager × List (Nat × α) :=
  match m.roomConns room_id with
  | none => (m, [])
  | some conns =>
      let looped := conns.foldl
        (fun (acc : List (Nat × α) × List Nat) connection =>
          if fails connection then (acc.1, acc.2 ++ [connection])
          else (acc.1 ++ [(connection, message)], acc.2))
        ([], [])
      let sent := looped.1
      let disconnected := looped.2
      (m.setRoom room_id (conns.filter (fun c => !(disconnected.contains c))), sent)

end ConnectionManager

/-- Outbound `"message"` event envelope built in `websocket_endpoint` from
the persisted message (the timestamp field is elided with the clock). -/
structure MessageEvent where
  id : Nat
  sender_id : String
  sender_type : String
  message : String
deriving DecidableEq, Repr

/-- Inbound chat frame `{sender_id, sender_type, message}` after a
successful JSON decode in `websocket_endpoint`. -/
structure InboundFrame where
  sender_id : String
  sender_type : String
  message : String
deriving DecidableEq, Repr

/-- One iteration of the `websocket_endpoint` receive loop on a well-formed
(JSON-decodable) frame: run `ChatService.create_message`; only if it
returned a persisted message, broadcast the `"message"` event to the room.
Returns the new store, the new registry, and the deliveries made. -/
def websocket_handle_frame (db : DB) (m : ConnectionManager)
    (fails : Nat → Bool) (room_id : Nat) (frame : InboundFrame) :
    DB × ConnectionManager × List (Nat × MessageEvent) :=
  let result := ChatService.create_message db room_id
    frame.sender_id frame.sender_type frame.message
  match result.2 with
  | none => (result.1, m, [])
  | some created =>
      let ev : MessageEvent :=
        { id := created.id
          sender_id := created.sender_id
          sender_type := created.sender_type
          message := created.message }
      let bc := ConnectionManager.broadcast m fails room_id ev
      (result.1, bc.1, bc.2)

/-- The effect of one iteration of the cancel cascade inside
`HospitalService.accept_request` on a single stored request `x`, when the
loop visits the snapshot element `req`: exactly the update applied by
`update_transfer_request` at that call site. Used to state the fold
characterization lemmas. -/
def cascadeElemStep (rid : Nat) (x req : TransferRequest) : TransferRequest :=
  if req.id ≠ rid ∧ req.status = "pending" then
    (if x.id == req.id then { x with status := "cancelled" } else x)
  else x

/-! Concrete fixtures used by the closed instances of the theorems below. -/

namespace Fx

/-- A patient owned by EMS unit `"e1"`, already matched. -/
def patient0 : Patient :=
  { id := 0, ems_unit_id := "e1", name := "kim", age := 30, gender := "M",
    disease_code := "I21", severity_code := "KTAS_1", latitude := 37,
    longitude := 127, vital_signs := none, status := "matched" }

/-- A pending request for `patient0` targeting hospital `"h1"`. -/
def req1 : TransferRequest :=
  { id := 10, patient_id := 0, ems_unit_id := "e1", hospital_id := "h1",
    hospital_name := "A", hospital_address := "", status := "pending",
    rejection_reason := none, ml_score := 1, distance_km := 2,
    estimated_time_minutes := 3, recommendation_reason := "",
    total_beds := none, has_trauma_center := none }

/-- A second pending request for `patient0` targeting hospital `"h2"`. -/
def req2 : TransferRequest :=
  { req1 with id := 11, hospital_id := "h2", hospital_name := "B" }

/-- Store holding `patient0` with its two pending requests. -/
def db0 : DB :=
  { patients := [patient0], transfer_requests := [req1, req2],
    chat_rooms := [], chat_messages := [], nextId := 20 }

/-- An empty store. -/
def emptyDB : DB :=
  { patients := [], transfer_requests := [], chat_rooms := [],
    chat_messages := [], nextId := 0 }

/-- A valid registration payload. -/
def payload : PatientPayload :=
  { name := "kim", age := 30, gender := "M", disease_code := "I21",
    severity_code := "KTAS_1", latitude := 37, longitude := 127,
    vital_signs := none }

/-- An invalid registration payload (age below 0). -/
def badPayload : PatientPayload := { payload with age := -1 }

/-- One ranked hospital returned by the ML oracle. -/
def mlHospital : MLHospital :=
  { facid := "f1", name := "H", address := "addr", final_score := 9,
    distance_km := 2, duration_minutes := 5, recommendation_reason := "",
    total_beds := some 10, has_trauma_center := some true }

/-- An explicit hospital selection naming hospital `"hospB"`. -/
def hospitalData : HospitalData :=
  { hospital_id := "hospB", hospital_name := "B", hospital_address := "",
    ml_score := 0, distance_km := 0, estimated_time_minutes := 0,
    recommendation_reason := "", total_beds := none, has_trauma_center := none }

/-- A chat room between EMS `"e1"` and hospital `"h1"`. -/
def room7 : ChatRoom :=
  { id := 7, patient_id := 0, ems_unit_id := "e1", hospital_id := "h1",
    is_active := true }

/-- Store holding only `room7`. -/
def chatDB : DB :=
  { patients := [], transfer_requests := [], chat_rooms := [room7],
    chat_messages := [], nextId := 20 }

/-- Registry with room 5 holding connections 1, 2 and 3. -/
def manager : ConnectionManager := { active_connections := [(5, [1, 2, 3])] }

end Fx

/-! Lemmas about the storage layer used by several proofs. -/

/-- A lookup in an updated collection: updating document `pid` and reading
`pid` back yields the updated document, for any id-preserving update. -/
theorem get_patient_update_self (db : DB) (pid : Nat) (f : Patient → Patient)
    (hf : ∀ q : Patient, (f q).id = q.id) (p : Patient)
    (hp : FirebaseClient.get_patient db pid = some p) :
    FirebaseClient.get_patient (FirebaseClient.update_patient db pid f) pid
      = some (f p) := by
  unfold FirebaseClient.get_patient FirebaseClient.update_patient
  unfold FirebaseClient.get_patient at hp
  have hcomp :
      ((fun q : Patient => q.id == pid) ∘
        (fun q : Patient => if q.id == pid then f q else q))
        = (fun q : Patient => q.id == pid) := by
    funext q
    by_cases h : q.id = pid
    · simp [h, hf]
    · simp [h]
  rw [List.find?_map, hcomp, hp]
  have hpid : (p.id == pid) = true := List.find?_some (p := fun q : Patient => q.id == pid) hp
  simp [hpid]
  exact fun h => absurd (by simpa using hpid) h

/-- The transfer-request analogue of `get_patient_update_self`. -/
theorem get_request_update_self (db : DB) (rid : Nat)
    (f : TransferRequest → TransferRequest)
    (hf : ∀ q : TransferRequest, (f q).id = q.id) (r : TransferRequest)
    (hr : FirebaseClient.get_transfer_request db rid = some r) :
    FirebaseClient.get_transfer_request
        (FirebaseClient.update_transfer_request db rid f) rid = some (f r) := by
  unfold FirebaseClient.get_transfer_request FirebaseClient.update_transfer_request
  unfold FirebaseClient.get_transfer_request at hr
  have hcomp :
      ((fun q : TransferRequest => q.id == rid) ∘
        (fun q : TransferRequest => if q.id == rid then f q else q))
        = (fun q : TransferRequest => q.id == rid) := by
    funext q
    by_cases h : q.id = rid
    · simp [h, hf]
    · simp [h]
  rw [List.find?_map, hcomp, hr]
  have hrid : (r.id == rid) = true := List.find?_some (p := fun q : TransferRequest => q.id == rid) hr
  simp [hrid]
  exact fun h => absurd (by simpa using hrid) h

/-- Reading back a freshly created patient document. -/
theorem get_patient_create_self (db : DB) (p : Patient)
    (hfresh : ∀ q ∈ db.patients, q.id ≠ db.nextId) :
    FirebaseClient.get_patient (FirebaseClient.create_patient db p).1
        (FirebaseClient.create_patient db p).2
      = some { p with id := db.nextId } := by
  unfold FirebaseClient.get_patient FirebaseClient.create_patient
  rw [List.find?_append]
  have hnone : db.patients.find? (fun q => q.id == db.nextId) = none := by
    rw [List.find?_eq_none]
    intro q hq
    simpa using hfresh q hq
  simp [hnone]

/-- Reading back a freshly created transfer-request document. -/
theorem get_request_create_self (db : DB) (r : TransferRequest)
    (hfresh : ∀ q ∈ db.transfer_requests, q.id ≠ db.nextId) :
    FirebaseClient.get_transfer_request (FirebaseClient.create_transfer_request db r).1
        (FirebaseClient.create_transfer_request db r).2
      = some { r with id := db.nextId } := by
  unfold FirebaseClient.get_transfer_request FirebaseClient.create_transfer_request
  rw [List.find?_append]
  have hnone : db.transfer_requests.find? (fun q => q.id == db.nextId) = none := by
    rw [List.find?_eq_none]
    intro q hq
    simpa using hfresh q hq
  simp [hnone]

/-- C10: when the payload fails demographic validation (blank name, age out
of [0,150], or gender outside {M, F}), `register_patient` returns a failure
and leaves the store untouched: no Patient, no TransferRequest, and the
result does not depend on the ranking oracle, so no ranking call is made. -/
theorem register_patient_invalid_is_noop (db : DB) (ems_unit_id : String)
    (pd : PatientPayload) (ml : MLResponse)
    (h : pyStrip pd.name = "" ∨ pd.age < 0 ∨ 150 < pd.age ∨
         (pd.gender ≠ "M" ∧ pd.gender ≠ "F")) :
    PatientService.register_patient db ems_unit_id pd ml = (db, none) := by
  have hv : (validate_patient_data pd.name pd.age pd.gender).1 = false := by
    unfold validate_patient_data
    rcases h with h | h | h | ⟨h1, h2⟩
    · simp [h]
    · split
      · rfl
      · simp [h]
    · split
      · rfl
      · have : pd.age > 150 := h
        simp [this]
    · split
      · rfl
      · split
        · rfl
        · simp [h1, h2]
  simp [PatientService.register_patient, hv]

/-- Closed instance of C10: a payload with age −1 is rejected and the store
is unchanged, with the ranking outcome irrelevant. -/
theorem register_patient_invalid_is_noop_witness :
    Fx.badPayload.age < 0 ∧
      PatientService.register_patient Fx.emptyDB "e1" Fx.badPayload
        MLResponse.httpError = (Fx.emptyDB, none) :=
  ⟨by decide,
   register_patient_invalid_is_noop Fx.emptyDB "e1" Fx.badPayload
     MLResponse.httpError (Or.inr (Or.inl (by decide)))⟩

/-- C6: `complete_transfer` is idempotent for a patient owned by the calling
EMS unit: the first call yields a patient in terminal status
`"transferred"`, and the second call returns the same value without error
and without changing the store. -/
theorem complete_transfer_idempotent (db : DB) (pid : Nat) (eid : String)
    (p : Patient) (hp : FirebaseClient.get_patient db pid = some p)
    (hown : p.ems_unit_id = eid) :
    ∃ q : Patient,
      (PatientService.complete_transfer db pid eid).2 = some q ∧
      q.status = "transferred" ∧
      PatientService.complete_transfer
          (PatientService.complete_transfer db pid eid).1 pid eid
        = ((PatientService.complete_transfer db pid eid).1, some q) := by
  by_cases hst : p.status = "transferred"
  · exact ⟨p, by simp [PatientService.complete_transfer, hp, hown, hst], hst,
      by simp [PatientService.complete_transfer, hp, hown, hst]⟩
  · have h1 : FirebaseClient.get_patient
        (FirebaseClient.update_patient db pid
          (fun q => { q with status := "transferred" })) pid
        = some { p with status := "transferred" } :=
      get_patient_update_self db pid
        (fun q => { q with status := "transferred" }) (fun _ => rfl) p hp
    refine ⟨{ p with status := "transferred" }, ?_, rfl, ?_⟩
    · simp [PatientService.complete_transfer, hp, hown, hst, h1]
    · have hfirst : PatientService.complete_transfer db pid eid
          = (FirebaseClient.update_patient db pid
               (fun q => { q with status := "transferred" }),
             some { p with status := "transferred" }) := by
        simp [PatientService.complete_transfer, hp, hown, hst, h1]
      rw [hfirst]
      simp [PatientService.complete_transfer, h1, hown]

/-- Closed instance of C6: completing the transfer of `Fx.patient0` twice
yields the same transferred patient both times and the second call leaves
the store untouched. -/
theorem complete_transfer_idempotent_witness :
    FirebaseClient.get_patient Fx.db0 0 = some Fx.patient0 ∧
    ∃ q : Patient,
      (PatientService.complete_transfer Fx.db0 0 "e1").2 = some q ∧
      q.status = "transferred" ∧
      PatientService.complete_transfer
          (PatientService.complete_transfer Fx.db0 0 "e1").1 0 "e1"
        = ((PatientService.complete_transfer Fx.db0 0 "e1").1, some q) :=
  ⟨by decide, complete_transfer_idempotent Fx.db0 0 "e1" Fx.patient0
    (by decide) rfl⟩


/-- C5: when the ranking call fails (non-2xx, network error/timeout) or
returns zero candidates — exactly the cases where `_get_ml_matches` comes
back empty — `register_patient` still returns the persisted patient, the
patient's status stays `"searching"`, no TransferRequest is created, and no
candidate list is attached. -/
theorem register_patient_ranking_soft_failure (db : DB) (ems_unit_id : String)
    (pd : PatientPayload) (ml : MLResponse)
    (hfresh : ∀ q ∈ db.patients, q.id ≠ db.nextId)
    (hvalid : (validate_patient_data pd.name pd.age pd.gender).1 = true)
    (hml : PatientService.get_ml_matches ml = []) :
    ∃ pat : Patient,
      (PatientService.register_patient db ems_unit_id pd ml).2
        = some { patient := pat, matched_hospitals := none } ∧
      pat.status = "searching" ∧
      (PatientService.register_patient db ems_unit_id pd ml).1.transfer_requests
        = db.transfer_requests := by
  have hget := get_patient_create_self db
    { id := 0
      ems_unit_id := ems_unit_id
      name := pd.name
      age := pd.age
      gender := pd.gender
      disease_code := pd.disease_code
      severity_code := pd.severity_code
      latitude := pd.latitude
      longitude := pd.longitude
      vital_signs := pd.vital_signs
      status := "searching" } hfresh
  have hrun : PatientService.register_patient db ems_unit_id pd ml
      = ((FirebaseClient.create_patient db
            { id := 0
              ems_unit_id := ems_unit_id
              name := pd.name
              age := pd.age
              gender := pd.gender
              disease_code := pd.disease_code
              severity_code := pd.severity_code
              latitude := pd.latitude
              longitude := pd.longitude
              vital_signs := pd.vital_signs
              status := "searching" }).1,
         some { patient :=
                  { id := db.nextId
                    ems_unit_id := ems_unit_id
                    name := pd.name
                    age := pd.age
                    gender := pd.gender
                    disease_code := pd.disease_code
                    severity_code := pd.severity_code
                    latitude := pd.latitude
                    longitude := pd.longitude
                    vital_signs := pd.vital_signs
                    status := "searching" }
                matched_hospitals := none }) := by
    simp only [PatientService.register_patient, hvalid, Bool.not_true,
      Bool.false_eq_true, if_false, hml, List.isEmpty_nil, if_true]
    rw [hget]
  refine ⟨{ id := db.nextId
            ems_unit_id := ems_unit_id
            name := pd.name
            age := pd.age
            gender := pd.gender
            disease_code := pd.disease_code
            severity_code := pd.severity_code
            latitude := pd.latitude
            longitude := pd.longitude
            vital_signs := pd.vital_signs
            status := "searching" }, ?_, rfl, ?_⟩
  · rw [hrun]
  · rw [hrun]
    rfl

/-- Closed instance of C5: registering a valid patient into the empty store
while the ML server answers non-2xx leaves the patient `"searching"`, with
no requests and no candidate list. -/
theorem register_patient_ranking_soft_failure_witness :
    (validate_patient_data Fx.payload.name Fx.payload.age Fx.payload.gender).1
        = true ∧
    ∃ pat : Patient,
      (PatientService.register_patient Fx.emptyDB "e1" Fx.payload
          MLResponse.httpError).2
        = some { patient := pat, matched_hospitals := none } ∧
      pat.status = "searching" ∧
      (PatientService.register_patient Fx.emptyDB "e1" Fx.payload
          MLResponse.httpError).1.transfer_requests
        = Fx.emptyDB.transfer_requests :=
  ⟨by decide, register_patient_ranking_soft_failure Fx.emptyDB "e1" Fx.payload
    MLResponse.httpError (by decide) (by decide) rfl⟩

/-- Counterexample to C3 as stated: a valid registration for which the
ranking oracle returns one candidate creates zero TransferRequest records,
not `min(10, 1) = 1` as the claim requires. -/
theorem register_patient_fanout_counterexample :
    (PatientService.register_patient Fx.emptyDB "e1" Fx.payload
        (MLResponse.ok [Fx.mlHospital])).1.transfer_requests.length = 0 ∧
    min 10 (PatientService.get_ml_matches
        (MLResponse.ok [Fx.mlHospital])).length = 1 := by
  decide

/-- C3 as amended: on a valid payload with at least one ranked candidate,
`register_patient` creates no TransferRequest records (the fan-out helper
`_create_transfer_requests` is defined but never invoked; requests are
created by the separate explicit-request API), advances the patient's
status to `"matched"`, and returns the patient annotated with the full
candidate list. -/
theorem register_patient_matched_no_fanout (db : DB) (ems_unit_id : String)
    (pd : PatientPayload) (ml : MLResponse) (hs : List MatchedHospital)
    (hfresh : ∀ q ∈ db.patients, q.id ≠ db.nextId)
    (hvalid : (validate_patient_data pd.name pd.age pd.gender).1 = true)
    (hml : PatientService.get_ml_matches ml = hs) (hne : hs ≠ []) :
    (PatientService.register_patient db ems_unit_id pd ml).1.transfer_requests
        = db.transfer_requests ∧
    ∃ pat : Patient,
      (PatientService.register_patient db ems_unit_id pd ml).2
        = some { patient := pat, matched_hospitals := some hs } ∧
      pat.status = "matched" := by
  have hget := get_patient_create_self db
    { id := 0
      ems_unit_id := ems_unit_id
      name := pd.name
      age := pd.age
      gender := pd.gender
      disease_code := pd.disease_code
      severity_code := pd.severity_code
      latitude := pd.latitude
      longitude := pd.longitude
      vital_signs := pd.vital_signs
      status := "searching" } hfresh
  have hup := get_patient_update_self
    (FirebaseClient.create_patient db
      { id := 0
        ems_unit_id := ems_unit_id
        name := pd.name
        age := pd.age
        gender := pd.gender
        disease_code := pd.disease_code
        severity_code := pd.severity_code
        latitude := pd.latitude
        longitude := pd.longitude
        vital_signs := pd.vital_signs
        status := "searching" }).1
    (FirebaseClient.create_patient db
      { id := 0
        ems_unit_id := ems_unit_id
        name := pd.name
        age := pd.age
        gender := pd.gender
        disease_code := pd.disease_code
        severity_code := pd.severity_code
        latitude := pd.latitude
        longitude := pd.longitude
        vital_signs := pd.vital_signs
        status := "searching" }).2
    (fun q => { q with status := "matched" }) (fun _ => rfl) _ hget
  have hne' : hs.isEmpty = false := by
    cases hs with
    | nil => exact absurd rfl hne
    | cons a t => rfl
  have hrun : PatientService.register_patient db ems_unit_id pd ml
      = (FirebaseClient.update_patient
           (FirebaseClient.create_patient db
             { id := 0
               ems_unit_id := ems_unit_id
               name := pd.name
               age := pd.age
               gender := pd.gender
               disease_code := pd.disease_code
               severity_code := pd.severity_code
               latitude := pd.latitude
               longitude := pd.longitude
               vital_signs := pd.vital_signs
               status := "searching" }).1
           db.nextId (fun q => { q with status := "matched" }),
         some { patient :=
                  { id := db.nextId
                    ems_unit_id := ems_unit_id
                    name := pd.name
                    age := pd.age
                    gender := pd.gender
                    disease_code := pd.disease_code
                    severity_code := pd.severity_code
                    latitude := pd.latitude
                    longitude := pd.longitude
                    vital_signs := pd.vital_signs
                    status := "matched" }
                matched_hospitals := some hs }) := by
    simp only [PatientService.register_patient, hvalid, Bool.not_true,
      Bool.false_eq_true, if_false, hml, hne', hup]
    rfl
  constructor
  · rw [hrun]
    rfl
  · refine ⟨{ id := db.nextId
              ems_unit_id := ems_unit_id
              name := pd.name
              age := pd.age
              gender := pd.gender
              disease_code := pd.disease_code
              severity_code := pd.severity_code
              latitude := pd.latitude
              longitude := pd.longitude
              vital_signs := pd.vital_signs
              status := "matched" }, ?_, rfl⟩
    rw [hrun]

/-- Closed instance of the amended C3: one ranked candidate, zero requests
created, patient `"matched"`, full candidate list attached. -/
theorem register_patient_matched_no_fanout_witness :
    PatientService.get_ml_matches (MLResponse.ok [Fx.mlHospital]) ≠ [] ∧
    ((PatientService.register_patient Fx.emptyDB "e1" Fx.payload
        (MLResponse.ok [Fx.mlHospital])).1.transfer_requests
      = Fx.emptyDB.transfer_requests ∧
    ∃ pat : Patient,
      (PatientService.register_patient Fx.emptyDB "e1" Fx.payload
          (MLResponse.ok [Fx.mlHospital])).2
        = some { patient := pat,
                 matched_hospitals :=
                   some (PatientService.get_ml_matches
                     (MLResponse.ok [Fx.mlHospital])) } ∧
      pat.status = "matched") :=
  ⟨by decide,
   register_patient_matched_no_fanout Fx.emptyDB "e1" Fx.payload
     (MLResponse.ok [Fx.mlHospital]) _ (by decide) (by decide) rfl
     (by decide)⟩

/-- Counterexample to C4 as stated: an explicit request naming hospital
`"hospB"` for an owned, non-transferred patient is persisted with
`hospital_id = "hosp01"`, not the chosen hospital. -/
theorem create_transfer_request_demo_counterexample :
    ((PatientService.create_transfer_request Fx.db0 0 "e1" Fx.hospitalData).2.map
        TransferRequest.hospital_id) = some "hosp01" ∧
    Fx.hospitalData.hospital_id = "hospB" ∧ ("hosp01" : String) ≠ "hospB" := by
  decide

/-- C4 as amended: for an existing, non-transferred patient owned by the
calling EMS unit, `create_transfer_request` persists exactly one new
`"pending"` TransferRequest whose `hospital_id` is the demo constant
`"hosp01"` regardless of the hospital chosen in the call (the remaining
fields are seeded from the selection), sets the patient's status to
`"requesting"`, and returns the new request. -/
theorem create_transfer_request_demo_hospital (db : DB) (pid : Nat)
    (eid : String) (hd : HospitalData) (p : Patient)
    (hp : FirebaseClient.get_patient db pid = some p)
    (hown : p.ems_unit_id = eid) (hst : p.status ≠ "transferred")
    (hfresh : ∀ r ∈ db.transfer_requests, r.id ≠ db.nextId) :
    (PatientService.create_transfer_request db pid eid hd).1.transfer_requests
        = db.transfer_requests ++
          [{ id := db.nextId, patient_id := pid, ems_unit_id := eid,
             hospital_id := "hosp01", hospital_name := hd.hospital_name,
             hospital_address := hd.hospital_address, status := "pending",
             rejection_reason := none, ml_score := hd.ml_score,
             distance_km := hd.distance_km,
             estimated_time_minutes := hd.estimated_time_minutes,
             recommendation_reason := hd.recommendation_reason,
             total_beds := hd.total_beds,
             has_trauma_center := hd.has_trauma_center }] ∧
    (PatientService.create_transfer_request db pid eid hd).2
        = some { id := db.nextId, patient_id := pid, ems_unit_id := eid,
                 hospital_id := "hosp01", hospital_name := hd.hospital_name,
                 hospital_address := hd.hospital_address, status := "pending",
                 rejection_reason := none, ml_score := hd.ml_score,
                 distance_km := hd.distance_km,
                 estimated_time_minutes := hd.estimated_time_minutes,
                 recommendation_reason := hd.recommendation_reason,
                 total_beds := hd.total_beds,
                 has_trauma_center := hd.has_trauma_center } ∧
    FirebaseClient.get_patient
        (PatientService.create_transfer_request db pid eid hd).1 pid
      = some { p with status := "requesting" } := by
  have hne1 : ¬ p.ems_unit_id ≠ eid := by simp [hown]
  have hcreate := get_request_create_self db
    { id := 0, patient_id := pid, ems_unit_id := eid,
      hospital_id := "hosp01", hospital_name := hd.hospital_name,
      hospital_address := hd.hospital_address, status := "pending",
      rejection_reason := none, ml_score := hd.ml_score,
      distance_km := hd.distance_km,
      estimated_time_minutes := hd.estimated_time_minutes,
      recommendation_reason := hd.recommendation_reason,
      total_beds := hd.total_beds,
      has_trauma_center := hd.has_trauma_center } hfresh
  have hp1 : FirebaseClient.get_patient
      (FirebaseClient.create_transfer_request db
        { id := 0, patient_id := pid, ems_unit_id := eid,
          hospital_id := "hosp01", hospital_name := hd.hospital_name,
          hospital_address := hd.hospital_address, status := "pending",
          rejection_reason := none, ml_score := hd.ml_score,
          distance_km := hd.distance_km,
          estimated_time_minutes := hd.estimated_time_minutes,
          recommendation_reason := hd.recommendation_reason,
          total_beds := hd.total_beds,
          has_trauma_center := hd.has_trauma_center }).1 pid = some p := hp
  have hpup := get_patient_update_self
    (FirebaseClient.create_transfer_request db
      { id := 0, patient_id := pid, ems_unit_id := eid,
        hospital_id := "hosp01", hospital_name := hd.hospital_name,
        hospital_address := hd.hospital_address, status := "pending",
        rejection_reason := none, ml_score := hd.ml_score,
        distance_km := hd.distance_km,
        estimated_time_minutes := hd.estimated_time_minutes,
        recommendation_reason := hd.recommendation_reason,
        total_beds := hd.total_beds,
        has_trauma_center := hd.has_trauma_center }).1 pid
    (fun q => { q with status := "requesting" }) (fun _ => rfl) p hp1
  refine ⟨?_, ?_, ?_⟩
  · simp only [PatientService.create_transfer_request, hp, if_neg hne1,
      if_neg hst]
    rfl
  · simp only [PatientService.create_transfer_request, hp, if_neg hne1,
      if_neg hst]
    exact hcreate
  · simp only [PatientService.create_transfer_request, hp, if_neg hne1,
      if_neg hst]
    exact hpup

/-- Closed instance of the amended C4: requesting hospital `"hospB"` for
`Fx.patient0` stores one pending request to `"hosp01"` and marks the
patient `"requesting"`. -/
theorem create_transfer_request_demo_hospital_witness :
    FirebaseClient.get_patient Fx.db0 0 = some Fx.patient0 ∧
    ((PatientService.create_transfer_request Fx.db0 0 "e1"
        Fx.hospitalData).1.transfer_requests
        = Fx.db0.transfer_requests ++
          [{ id := Fx.db0.nextId, patient_id := 0, ems_unit_id := "e1",
             hospital_id := "hosp01",
             hospital_name := Fx.hospitalData.hospital_name,
             hospital_address := Fx.hospitalData.hospital_address,
             status := "pending", rejection_reason := none,
             ml_score := Fx.hospitalData.ml_score,
             distance_km := Fx.hospitalData.distance_km,
             estimated_time_minutes := Fx.hospitalData.estimated_time_minutes,
             recommendation_reason := Fx.hospitalData.recommendation_reason,
             total_beds := Fx.hospitalData.total_beds,
             has_trauma_center := Fx.hospitalData.has_trauma_center }] ∧
    (PatientService.create_transfer_request Fx.db0 0 "e1" Fx.hospitalData).2
        = some { id := Fx.db0.nextId, patient_id := 0, ems_unit_id := "e1",
                 hospital_id := "hosp01",
                 hospital_name := Fx.hospitalData.hospital_name,
                 hospital_address := Fx.hospitalData.hospital_address,
                 status := "pending", rejection_reason := none,
                 ml_score := Fx.hospitalData.ml_score,
                 distance_km := Fx.hospitalData.distance_km,
                 estimated_time_minutes := Fx.hospitalData.estimated_time_minutes,
                 recommendation_reason := Fx.hospitalData.recommendation_reason,
                 total_beds := Fx.hospitalData.total_beds,
                 has_trauma_center := Fx.hospitalData.has_trauma_center } ∧
    FirebaseClient.get_patient
        (PatientService.create_transfer_request Fx.db0 0 "e1"
          Fx.hospitalData).1 0
      = some { Fx.patient0 with status := "requesting" }) :=
  ⟨by decide,
   create_transfer_request_demo_hospital Fx.db0 0 "e1" Fx.hospitalData
     Fx.patient0 (by decide) rfl (by decide) (by decide)⟩

/-- C9: for an existing request owned by the calling hospital, the reject
path sets only that request to `"rejected"` with the supplied reason — the
code's default `"병상 부족"` ("no capacity") when the reason is omitted —
and leaves every other request, and every patient (hence the patient's
status), unchanged. -/
theorem reject_request_only_target (db : DB) (rid : Nat) (hid : String)
    (reasonOpt : Option String) (r : TransferRequest)
    (hr : FirebaseClient.get_transfer_request db rid = some r)
    (hh : r.hospital_id = hid) :
    ∃ reasonStr : String,
      (reasonOpt = none → reasonStr = "병상 부족") ∧
      (∀ s : String, reasonOpt = some s → s ≠ "" → reasonStr = s) ∧
      (api_reject_request db rid hid reasonOpt).2
        = some { r with status := "rejected",
                        rejection_reason := some reasonStr } ∧
      (api_reject_request db rid hid reasonOpt).1.patients = db.patients ∧
      (api_reject_request db rid hid reasonOpt).1.transfer_requests
        = db.transfer_requests.map
            (fun x => if x.id == rid then
              { x with status := "rejected",
                       rejection_reason := some reasonStr }
              else x) := by
  have hne1 : ¬ r.hospital_id ≠ hid := by simp [hh]
  refine ⟨(match reasonOpt with
           | none => "병상 부족"
           | some s => if s = "" then "병상 부족" else s), ?_, ?_, ?_, ?_, ?_⟩
  · intro h
    rw [h]
  · intro s hs hne
    rw [hs]
    simp [hne]
  · simp only [api_reject_request, HospitalService.reject_request, hr,
      if_neg hne1]
    exact get_request_update_self db rid
      (fun q => { q with status := "rejected",
                         rejection_reason := some (match reasonOpt with
                           | none => "병상 부족"
                           | some s => if s = "" then "병상 부족" else s) })
      (fun _ => rfl) r hr
  · simp only [api_reject_request, HospitalService.reject_request, hr,
      if_neg hne1]
    rfl
  · simp only [api_reject_request, HospitalService.reject_request, hr,
      if_neg hne1]
    rfl

/-- Closed instance of C9: rejecting `Fx.req1` with no reason stores the
default reason, rejects only that request, and touches no patient. -/
theorem reject_request_only_target_witness :
    FirebaseClient.get_transfer_request Fx.db0 10 = some Fx.req1 ∧
    ∃ reasonStr : String,
      ((none : Option String) = none → reasonStr = "병상 부족") ∧
      (∀ s : String, (none : Option String) = some s → s ≠ "" →
        reasonStr = s) ∧
      (api_reject_request Fx.db0 10 "h1" none).2
        = some { Fx.req1 with status := "rejected",
                              rejection_reason := some reasonStr } ∧
      (api_reject_request Fx.db0 10 "h1" none).1.patients = Fx.db0.patients ∧
      (api_reject_request Fx.db0 10 "h1" none).1.transfer_requests
        = Fx.db0.transfer_requests.map
            (fun x => if x.id == 10 then
              { x with status := "rejected",
                       rejection_reason := some reasonStr }
              else x) :=
  ⟨by decide, reject_request_only_target Fx.db0 10 "h1" none Fx.req1
    (by decide) rfl⟩

/-- The broadcast delivery loop, characterized: successful deliveries in
room order, failing connections collected in order. -/
theorem broadcast_foldl_spec {α : Type} (message : α) (fails : Nat → Bool)
    (L : List Nat) (acc1 : List (Nat × α)) (acc2 : List Nat) :
    L.foldl
      (fun (acc : List (Nat × α) × List Nat) connection =>
        if fails connection then (acc.1, acc.2 ++ [connection])
        else (acc.1 ++ [(connection, message)], acc.2))
      (acc1, acc2)
    = (acc1 ++ (L.filter (fun c => !fails c)).map (fun c => (c, message)),
       acc2 ++ L.filter fails) := by
  induction L generalizing acc1 acc2 with
  | nil => simp
  | cons a t ih =>
      by_cases h : fails a
      · simp [List.foldl_cons, h, ih, List.filter_cons]
      · simp [List.foldl_cons, h, ih, List.filter_cons]

/-- Replacing a registered room's connection set is visible to lookups. -/
theorem roomConns_setRoom (m : ConnectionManager) (room_id : Nat)
    (conns0 conns : List Nat)
    (hroom : m.roomConns room_id = some conns0) :
    (m.setRoom room_id conns).roomConns room_id = some conns := by
  unfold ConnectionManager.roomConns ConnectionManager.setRoom
  unfold ConnectionManager.roomConns at hroom
  have hcomp :
      ((fun e : Nat × List Nat => e.1 == room_id) ∘
        (fun e : Nat × List Nat => if e.1 == room_id then (e.1, conns) else e))
        = (fun e : Nat × List Nat => e.1 == room_id) := by
    funext e
    by_cases h : e.1 = room_id
    · simp [h]
    · simp [h]
  rw [List.find?_map, hcomp]
  cases hfind : m.active_connections.find? (fun e => e.1 == room_id) with
  | none => rw [hfind] at hroom; simp at hroom
  | some e0 =>
      have he0 : e0.1 = room_id := by
        simpa using
          List.find?_some (p := fun e : Nat × List Nat => e.1 == room_id) hfind
      simp [he0]

/-- C7: `broadcast` delivers the event to every currently registered,
non-failing connection of the room; a raising connection does not block the
others and is removed from the room's connection set afterwards. -/
theorem broadcast_isolates_failures {α : Type} (m : ConnectionManager)
    (fails : Nat → Bool) (room_id : Nat) (message : α) (conns : List Nat)
    (hroom : m.roomConns room_id = some conns) :
    (∀ c ∈ conns, fails c = false →
      (c, message) ∈ (ConnectionManager.broadcast m fails room_id message).2) ∧
    (ConnectionManager.broadcast m fails room_id message).1.roomConns room_id
      = some (conns.filter (fun c => !fails c)) ∧
    (∀ c ∈ conns, fails c = true →
      c ∉ conns.filter (fun c => !fails c)) := by
  have hbc : ConnectionManager.broadcast m fails room_id message
      = (m.setRoom room_id (conns.filter (fun c => !fails c)),
         (conns.filter (fun c => !fails c)).map (fun c => (c, message))) := by
    unfold ConnectionManager.broadcast
    rw [hroom]
    simp only [broadcast_foldl_spec, List.nil_append]
    have hfc : conns.filter
        (fun c => !((conns.filter fails).contains c))
        = conns.filter (fun c => !fails c) := by
      apply List.filter_congr
      intro c hc
      by_cases hf : fails c
      · simp [hf, List.elem_iff, List.mem_filter, hc]
      · simp [hf, List.elem_iff, List.mem_filter]
    rw [hfc]
  refine ⟨?_, ?_, ?_⟩
  · intro c hc hf
    rw [hbc]
    exact List.mem_map.mpr ⟨c, List.mem_filter.mpr ⟨hc, by simp [hf]⟩, rfl⟩
  · rw [hbc]
    exact roomConns_setRoom m room_id conns _ hroom
  · intro c hc hf hmem
    have := (List.mem_filter.mp hmem).2
    simp [hf] at this

/-- Closed instance of C7: broadcasting to room 5 of `Fx.manager` while
connection 2's send raises delivers to connections 1 and 3 and removes
connection 2 from the room. -/
theorem broadcast_isolates_failures_witness :
    Fx.manager.roomConns 5 = some [1, 2, 3] ∧
    ((∀ c ∈ [1, 2, 3], (fun c => c == 2) c = false →
      (c, "ev") ∈ (ConnectionManager.broadcast Fx.manager
        (fun c => c == 2) 5 "ev").2) ∧
    (ConnectionManager.broadcast Fx.manager (fun c => c == 2) 5
        "ev").1.roomConns 5
      = some (([1, 2, 3] : List Nat).filter (fun c => !(c == 2))) ∧
    (∀ c ∈ [1, 2, 3], (fun c => c == 2) c = true →
      c ∉ ([1, 2, 3] : List Nat).filter (fun c => !(c == 2)))) :=
  ⟨by decide,
   broadcast_isolates_failures Fx.manager (fun c => c == 2) 5 "ev" [1, 2, 3]
     (by decide)⟩

/-- C8: a well-formed inbound frame whose sender does not match the room's
recorded participant for its sender type (`"ems"` ↦ `ems_unit_id`,
`"hospital"` ↦ `hospital_id`) is silently dropped: the store is unchanged
(no ChatMessage persisted), the registry is unchanged, and nothing is
broadcast. -/
theorem chat_frame_nonparticipant_dropped (db : DB) (m : ConnectionManager)
    (fails : Nat → Bool) (room_id : Nat) (frame : InboundFrame)
    (room : ChatRoom)
    (hroom : FirebaseClient.get_chat_room db room_id = some room)
    (hmis : (frame.sender_type = "ems" ∧
               room.ems_unit_id ≠ frame.sender_id) ∨
            (frame.sender_type = "hospital" ∧
               room.hospital_id ≠ frame.sender_id)) :
    websocket_handle_frame db m fails room_id frame = (db, m, []) := by
  rcases hmis with ⟨h1, h2⟩ | ⟨h1, h2⟩
  · simp only [websocket_handle_frame, ChatService.create_message, hroom,
      if_pos (And.intro h1 h2)]
  · have hne : ¬ (frame.sender_type = "ems" ∧
        room.ems_unit_id ≠ frame.sender_id) := by
      rintro ⟨ha, _⟩
      rw [h1] at ha
      exact absurd ha (by decide)
    simp only [websocket_handle_frame, ChatService.create_message, hroom,
      if_neg hne, if_pos (And.intro h1 h2)]

/-- Closed instance of C8: an `"ems"` frame from `"intruder"` in a room
whose EMS participant is `"e1"` changes nothing and broadcasts nothing. -/
theorem chat_frame_nonparticipant_dropped_witness :
    FirebaseClient.get_chat_room Fx.chatDB 7 = some Fx.room7 ∧
    websocket_handle_frame Fx.chatDB Fx.manager (fun _ => false) 7
        { sender_id := "intruder", sender_type := "ems", message := "hi" }
      = (Fx.chatDB, Fx.manager, []) :=
  ⟨by decide,
   chat_frame_nonparticipant_dropped Fx.chatDB Fx.manager (fun _ => false) 7
     { sender_id := "intruder", sender_type := "ems", message := "hi" }
     Fx.room7 (by decide) (Or.inl ⟨rfl, by decide⟩)⟩

/-- Re-setting an unchanged status field is the identity. -/
theorem set_status_cancelled_self (x : TransferRequest)
    (hx : x.status = "cancelled") : { x with status := "cancelled" } = x := by
  cases x
  simp_all

/-- The cancel cascade of `accept_request`, as a whole-store map: folding
the per-request updates over the snapshot `L` rewrites each stored request
by the element-wise fold and touches nothing else. -/
theorem cancel_cascade_foldl_spec (rid : Nat) (L : List TransferRequest)
    (d : DB) :
    L.foldl
      (fun d req =>
        if req.id ≠ rid ∧ req.status = "pending" then
          FirebaseClient.update_transfer_request d req.id
            (fun r => { r with status := "cancelled" })
        else d)
      d
    = { d with transfer_requests :=
          List.map (fun x => L.foldl (cascadeElemStep rid) x) d.transfer_requests } := by
  induction L generalizing d with
  | nil => simp
  | cons a t ih =>
      by_cases h : a.id ≠ rid ∧ a.status = "pending"
      · rw [List.foldl_cons, if_pos h, ih]
        unfold FirebaseClient.update_transfer_request
        simp only [List.map_map]
        congr 1
        apply List.map_congr_left
        intro x _
        simp only [Function.comp_apply, List.foldl_cons, cascadeElemStep,
          if_pos h]
      · rw [List.foldl_cons, if_neg h, ih]
        congr 1
        apply List.map_congr_left
        intro x _
        simp only [List.foldl_cons, cascadeElemStep, if_neg h]

/-- An element whose id is hit by no cascade iteration is unchanged. -/
theorem cascade_elem_untouched (rid : Nat) (L : List TransferRequest)
    (x : TransferRequest)
    (h : ∀ req ∈ L, (req.id ≠ rid ∧ req.status = "pending") →
      req.id ≠ x.id) :
    L.foldl (cascadeElemStep rid) x = x := by
  induction L with
  | nil => rfl
  | cons a t ih =>
      rw [List.foldl_cons]
      have hstep : cascadeElemStep rid x a = x := by
        unfold cascadeElemStep
        by_cases hc : a.id ≠ rid ∧ a.status = "pending"
        · have hne := h a (List.mem_cons_self a t) hc
          simp [hc, Ne.symm hne]
        · simp [hc]
      rw [hstep]
      exact ih (fun req hreq => h req (List.mem_cons_of_mem a hreq))

/-- An already-cancelled element is a fixed point of the cascade. -/
theorem cascade_elem_stable (rid : Nat) (L : List TransferRequest)
    (x : TransferRequest) (hx : x.status = "cancelled") :
    L.foldl (cascadeElemStep rid) x = x := by
  induction L with
  | nil => rfl
  | cons a t ih =>
      rw [List.foldl_cons]
      have hstep : cascadeElemStep rid x a = x := by
        unfold cascadeElemStep
        by_cases hc : a.id ≠ rid ∧ a.status = "pending"
        · by_cases hid : x.id == a.id
          · simp [hc, hid, set_status_cancelled_self x hx]
          · simp [hc, hid]
        · simp [hc]
      rw [hstep, ih]

/-- A pending element of the snapshot, other than the accepted target and
with a unique id there, leaves the cascade cancelled. -/
theorem cascade_elem_hit (rid : Nat) (L : List TransferRequest)
    (x : TransferRequest) (hmem : x ∈ L)
    (hinj : ∀ req ∈ L, req.id = x.id → req = x)
    (hcx : x.id ≠ rid ∧ x.status = "pending") :
    L.foldl (cascadeElemStep rid) x = { x with status := "cancelled" } := by
  induction L with
  | nil => exact absurd hmem (List.not_mem_nil x)
  | cons a t ih =>
      rw [List.foldl_cons]
      by_cases hax : a = x
      · subst hax
        have hstep : cascadeElemStep rid a a
            = { a with status := "cancelled" } := by
          unfold cascadeElemStep
          simp [hcx]
        rw [hstep]
        exact cascade_elem_stable rid t _ rfl
      · have hxt : x ∈ t := by
          rcases List.mem_cons.mp hmem with h | h
          · exact absurd h.symm hax
          · exact h
        have hstep : cascadeElemStep rid x a = x := by
          unfold cascadeElemStep
          by_cases hc : a.id ≠ rid ∧ a.status = "pending"
          · have hne : ¬ x.id = a.id := by
              intro he
              exact hax (hinj a (List.mem_cons_self a t) he.symm)
            simp [hc, hne]
          · simp [hc]
        rw [hstep]
        exact ih hxt (fun req hreq => hinj req (List.mem_cons_of_mem a hreq))

/-- C2: for an existing request owned by the calling hospital,
`accept_request` sets that request to `"accepted"`, sets exactly the same
patient's other currently-`"pending"` requests to `"cancelled"` (leaving
non-pending siblings and other patients' requests unchanged), appends
exactly one active ChatRoom keyed by (patient id, EMS unit id, hospital
id), and returns the updated request annotated with the new room's id. -/
theorem accept_request_cascade (db : DB) (rid : Nat) (hid : String)
    (r : TransferRequest)
    (hr : FirebaseClient.get_transfer_request db rid = some r)
    (hh : r.hospital_id = hid)
    (hnd : (db.transfer_requests.map TransferRequest.id).Nodup) :
    (HospitalService.accept_request db rid hid).1.transfer_requests
      = db.transfer_requests.map (fun x =>
          if x.id == rid then { x with status := "accepted" }
          else if x.patient_id = r.patient_id ∧ x.status = "pending" then
            { x with status := "cancelled" }
          else x) ∧
    (HospitalService.accept_request db rid hid).1.chat_rooms
      = db.chat_rooms ++
        [{ id := db.nextId, patient_id := r.patient_id,
           ems_unit_id := r.ems_unit_id, hospital_id := hid,
           is_active := true }] ∧
    (HospitalService.accept_request db rid hid).2
      = some { request := { r with status := "accepted" },
               chat_room_id := db.nextId } := by
  have hne1 : ¬ r.hospital_id ≠ hid := by simp [hh]
  have hrid : r.id = rid := by
    simpa using
      List.find?_some (p := fun q : TransferRequest => q.id == rid) hr
  have hrmem : r ∈ db.transfer_requests := List.mem_of_find?_eq_some hr
  have hinj := List.inj_on_of_nodup_map hnd
  have hu1id : ∀ x : TransferRequest,
      ((if x.id == rid then { x with status := "accepted" } else x) :
        TransferRequest).id = x.id := by
    intro x
    by_cases h : x.id = rid
    · simp [h]
    · simp [h]
  have hpoint : ∀ x ∈ db.transfer_requests,
      List.foldl (cascadeElemStep rid)
        (if x.id == rid then { x with status := "accepted" } else x)
        (List.filter (fun q => q.patient_id == r.patient_id)
          (List.map (fun x => if x.id == rid then
            { x with status := "accepted" } else x) db.transfer_requests))
      = (if x.id == rid then { x with status := "accepted" }
         else if x.patient_id = r.patient_id ∧ x.status = "pending" then
           { x with status := "cancelled" }
         else x) := by
    intro x hx
    by_cases hxid : x.id = rid
    · have hxr : x = r := hinj hx hrmem (by rw [hxid, hrid])
      rw [if_pos (by simp [hxid]), if_pos (by simp [hxid])]
      apply cascade_elem_untouched
      intro req hreq hc habs
      exact hc.1 (by rw [← habs] at hxid; exact hxid)
    · rw [if_neg (by simp [hxid]), if_neg (by simp [hxid])]
      have hmapself : x ∈ List.map (fun x => if x.id == rid then
          { x with status := "accepted" } else x) db.transfer_requests :=
        List.mem_map.mpr ⟨x, hx, by simp [hxid]⟩
      by_cases hcond : x.patient_id = r.patient_id ∧ x.status = "pending"
      · rw [if_pos hcond]
        apply cascade_elem_hit
        · exact List.mem_filter.mpr ⟨hmapself, by simp [hcond.1]⟩
        · intro req hreq hreqid
          obtain ⟨y, hy, hyeq⟩ :=
            List.mem_map.mp (List.mem_filter.mp hreq).1
          have hyid : y.id = x.id := by
            rw [← hreqid, ← hyeq]
            exact (hu1id y).symm
          have hyx : y = x := hinj hy hx hyid
          rw [← hyeq, hyx]
          simp [hxid]
        · exact ⟨hxid, hcond.2⟩
      · rw [if_neg hcond]
        apply cascade_elem_untouched
        intro req hreq hc habs
        obtain ⟨y, hy, hyeq⟩ :=
          List.mem_map.mp (List.mem_filter.mp hreq).1
        have hyid : y.id = x.id := by
          rw [← habs, ← hyeq]
          exact (hu1id y).symm
        have hyx : y = x := hinj hy hx hyid
        have hreqx : req = x := by rw [← hyeq, hyx]; simp [hxid]
        apply hcond
        constructor
        · have := (List.mem_filter.mp hreq).2
          rw [hreqx] at this
          simpa using this
        · rw [hreqx] at hc
          exact hc.2
  have hmapeq : List.map
      (fun x => List.foldl (cascadeElemStep rid) x
        (List.filter (fun q => q.patient_id == r.patient_id)
          (List.map (fun x => if x.id == rid then
            { x with status := "accepted" } else x) db.transfer_requests)))
      (List.map (fun x => if x.id == rid then
        { x with status := "accepted" } else x) db.transfer_requests)
      = db.transfer_requests.map (fun x =>
          if x.id == rid then { x with status := "accepted" }
          else if x.patient_id = r.patient_id ∧ x.status = "pending" then
            { x with status := "cancelled" }
          else x) := by
    rw [List.map_map]
    exact List.map_congr_left (fun x hx => hpoint x hx)
  have hfind : List.find? (fun q => q.id == rid)
      (db.transfer_requests.map (fun x =>
        if x.id == rid then { x with status := "accepted" }
        else if x.patient_id = r.patient_id ∧ x.status = "pending" then
          { x with status := "cancelled" }
        else x))
      = some { r with status := "accepted" } := by
    have hcomp : ((fun q : TransferRequest => q.id == rid) ∘
        (fun x : TransferRequest =>
          if x.id == rid then { x with status := "accepted" }
          else if x.patient_id = r.patient_id ∧ x.status = "pending" then
            { x with status := "cancelled" }
          else x)) = (fun q : TransferRequest => q.id == rid) := by
      funext x
      by_cases h : x.id = rid
      · simp [h]
      · by_cases h2 : x.patient_id = r.patient_id ∧ x.status = "pending"
        · simp [h, h2]
        · simp [h, h2]
    unfold FirebaseClient.get_transfer_request at hr
    rw [List.find?_map, hcomp, hr]
    simp [hrid]
  refine ⟨?_, ?_, ?_⟩
  · simp only [HospitalService.accept_request, hr, if_neg hne1]
    rw [cancel_cascade_foldl_spec]
    simp only [FirebaseClient.update_transfer_request,
      FirebaseClient.get_requests_for_patient,
      FirebaseClient.create_chat_room]
    rw [hmapeq]
    simp only [FirebaseClient.get_transfer_request]
    rw [hfind]
  · simp only [HospitalService.accept_request, hr, if_neg hne1]
    rw [cancel_cascade_foldl_spec]
    simp only [FirebaseClient.update_transfer_request,
      FirebaseClient.get_requests_for_patient,
      FirebaseClient.create_chat_room]
    rw [hmapeq]
    simp only [FirebaseClient.get_transfer_request]
    rw [hfind]
  · simp only [HospitalService.accept_request, hr, if_neg hne1]
    rw [cancel_cascade_foldl_spec]
    simp only [FirebaseClient.update_transfer_request,
      FirebaseClient.get_requests_for_patient,
      FirebaseClient.create_chat_room]
    rw [hmapeq]
    simp only [FirebaseClient.get_transfer_request]
    rw [hfind]

/-- Closed instance of C2: hospital `"h1"` accepting `Fx.req1` accepts it,
cancels the pending sibling `Fx.req2`, creates one active chat room for
(patient 0, `"e1"`, `"h1"`), and returns the accepted request with the new
room id. -/
theorem accept_request_cascade_witness :
    FirebaseClient.get_transfer_request Fx.db0 10 = some Fx.req1 ∧
    ((HospitalService.accept_request Fx.db0 10 "h1").1.transfer_requests
      = Fx.db0.transfer_requests.map (fun x =>
          if x.id == 10 then { x with status := "accepted" }
          else if x.patient_id = Fx.req1.patient_id ∧ x.status = "pending" then
            { x with status := "cancelled" }
          else x) ∧
    (HospitalService.accept_request Fx.db0 10 "h1").1.chat_rooms
      = Fx.db0.chat_rooms ++
        [{ id := Fx.db0.nextId, patient_id := Fx.req1.patient_id,
           ems_unit_id := Fx.req1.ems_unit_id, hospital_id := "h1",
           is_active := true }] ∧
    (HospitalService.accept_request Fx.db0 10 "h1").2
      = some { request := { Fx.req1 with status := "accepted" },
               chat_room_id := Fx.db0.nextId }) :=
  ⟨by decide,
   accept_request_cascade Fx.db0 10 "h1" Fx.req1 (by decide) rfl (by decide)⟩

/-- C1 fails on the code: `accept_request` never checks the target's
status, so after hospital `"h1"` accepts its request for patient 0
(cancelling the sibling), hospital `"h2"` can still successfully accept the
cancelled sibling, leaving two requests of the same patient in status
`"accepted"` simultaneously. -/
theorem accept_request_double_accept_bug :
    (HospitalService.accept_request Fx.db0 10 "h1").2.isSome = true ∧
    ((HospitalService.accept_request Fx.db0 10 "h1").1.transfer_requests.map
      (fun q => (q.id, q.status))) = [(10, "accepted"), (11, "cancelled")] ∧
    (HospitalService.accept_request
        (HospitalService.accept_request Fx.db0 10 "h1").1 11
        "h2").2.isSome = true ∧
    ((HospitalService.accept_request
        (HospitalService.accept_request Fx.db0 10 "h1").1 11
        "h2").1.transfer_requests.map
      (fun q => (q.id, q.status))) = [(10, "accepted"), (11, "accepted")] := by
  decide
